import Mathlib

/-!
Verification of the moderation pipeline of the marketplace repository.

The development shallowly embeds the moderation-relevant code:
- src/server/functions/uploadHandling.ts: onAssetUploaded, checkImageForNSFW,
  checkTextForNSFW, createWarning, checkExpiredBans;
- src/unnamed/part_000 (the earlier shipped version of the same module):
  checkImageForNSFW (old decision rule);
- src/unnamed/part_001 (the audit module): logAuditAction.

External I/O (HTTP calls to the classifier APIs, Firestore, Firebase Auth)
is modelled by explicit outcome parameters: each fallible external call is a
parameter describing what that call did, and each function is translated as a
pure function from those outcomes to the state changes and side effects the
TypeScript performs.  JavaScript truthiness, the `=== true` comparison and
the `|| default` idiom are modelled explicitly.  Confidence scores are exact
rationals.
-/

namespace Marketplace

/-- JavaScript truthiness of an optional string: `undefined`/`null` and the
empty string are falsy. -/
def jsTruthy : Option String → Bool
  | none => false
  | some s => !s.isEmpty

/-- The JavaScript idiom `x || default` for an optional string field: the
default is used when the field is absent or the empty string. -/
def jsOrStr (o : Option String) (d : String) : String :=
  match o with
  | some s => if s.isEmpty then d else s
  | none => d

/-! ## Image classifier adapter -/

/-- The JSON object extracted from the vision model's reply, as the adapter
reads it: whether the field is_nsfw is exactly the boolean true (the code
compares with triple equals), the confidence field when it is a number
(absent or non-numeric compares as false in the code), and the optional
category and reason strings. -/
structure ImageJson where
  is_nsfw_true : Bool
  confidence : Option ℚ
  category : Option String
  reason : Option String
deriving DecidableEq

/-- The normalized verdict returned by checkImageForNSFW. -/
structure NSFWResult where
  isNSFW : Bool
  confidence : ℚ
  reason : String
deriving DecidableEq

/-- Everything the OpenRouter call can come back with, as distinguished by
uploadHandling.ts: missing API key, non-2xx HTTP status, a response body
without choices[0].message, a message content with no JSON object in it,
JSON that fails to parse, a network error, or a successfully parsed object. -/
inductive ImageApiOutcome where
  | missingKey
  | httpError (status : Nat) (body : String)
  | invalidShape
  | noJsonMatch
  | jsonParseError
  | networkError (msg : String)
  | ok (result : ImageJson)
deriving DecidableEq

/-- The JavaScript comparison result.confidence > t: false when the field is
absent (NaN comparisons are false). -/
def confGt (c : Option ℚ) (t : ℚ) : Bool :=
  match c with
  | some q => decide (t < q)
  | none => false

/-- uploadHandling.ts line 288: isNSFW = result.is_nsfw === true || result.confidence > 0.65. -/
def imageVerdict (r : ImageJson) : Bool :=
  r.is_nsfw_true || confGt r.confidence (65 / 100)

/-- part_000 line 194: isNSFW = result.is_nsfw === true && result.confidence > 0.7. -/
def imageVerdict_v0 (r : ImageJson) : Bool :=
  r.is_nsfw_true && confGt r.confidence (7 / 10)

/-- checkImageForNSFW of uploadHandling.ts: every failure outcome throws
(modelled as Except.error, carrying the rethrown message of line 302); a
parsed response yields the verdict of line 288, the numeric confidence
defaulted to 0, and the reason string built on line 297. -/
def checkImageForNSFW : ImageApiOutcome → Except String NSFWResult
  | ImageApiOutcome.missingKey =>
      Except.error "NSFW detection service unavailable - uploads temporarily disabled"
  | ImageApiOutcome.httpError status body =>
      Except.error ("NSFW detection failed: OpenRouter API error " ++ toString status ++ ": " ++ body)
  | ImageApiOutcome.invalidShape =>
      Except.error "NSFW detection failed: Invalid response format from OpenRouter API"
  | ImageApiOutcome.noJsonMatch =>
      Except.error "NSFW detection failed: Failed to parse NSFW detection response"
  | ImageApiOutcome.jsonParseError =>
      Except.error "NSFW detection failed: Invalid JSON in NSFW detection response"
  | ImageApiOutcome.networkError msg =>
      Except.error ("NSFW detection failed: " ++ msg)
  | ImageApiOutcome.ok r =>
      Except.ok
        { isNSFW := imageVerdict r
          confidence := r.confidence.getD 0
          reason := "[" ++ jsOrStr r.category "unknown" ++ "] " ++ jsOrStr r.reason "No reason provided" }

/-- checkImageForNSFW of src/unnamed/part_000: same failure behaviour, but
the decision rule of its line 194 and the reason default of its line 196. -/
def checkImageForNSFW_v0 : ImageApiOutcome → Except String NSFWResult
  | ImageApiOutcome.missingKey =>
      Except.error "OPENROUTER_API_KEY not configured"
  | ImageApiOutcome.httpError _ body =>
      Except.error ("NSFW detection failed: OpenRouter API error: " ++ body)
  | ImageApiOutcome.invalidShape =>
      Except.error "NSFW detection failed"
  | ImageApiOutcome.noJsonMatch =>
      Except.error "NSFW detection failed: Failed to parse NSFW response"
  | ImageApiOutcome.jsonParseError =>
      Except.error "NSFW detection failed: JSON parse error"
  | ImageApiOutcome.networkError msg =>
      Except.error ("NSFW detection failed: " ++ msg)
  | ImageApiOutcome.ok r =>
      Except.ok
        { isNSFW := imageVerdict_v0 r
          confidence := r.confidence.getD 0
          reason := jsOrStr r.reason "Unable to determine" }

/-- True exactly when the adapter call threw. -/
def exceptFailed {ε α : Type} : Except ε α → Bool
  | Except.error _ => true
  | Except.ok _ => false

/-! ## Text classifier adapter -/

/-- The sentiment object of a successful JigsawStack reply. -/
structure SentimentData where
  emotion : Option String
  sentiment : Option String
  score : Option ℚ
deriving DecidableEq

/-- Everything the JigsawStack call can come back with, as distinguished by
checkTextForNSFW: non-2xx HTTP status, a 2xx body without a sentiment
object, a thrown exception (network error), or sentiment data. -/
inductive TextApiOutcome where
  | httpError (status : Nat)
  | okNoSentiment
  | thrown
  | okSentiment (data : SentimentData)
deriving DecidableEq

/-- The verdict record checkTextForNSFW returns. -/
structure TextVerdict where
  isNSFW : Bool
  reason : String
  emotion : String
  sentiment : String
deriving DecidableEq

/-- Whether the first character list starts with the second. -/
def startsWithChars : List Char → List Char → Bool
  | _, [] => true
  | [], _ :: _ => false
  | a :: s, b :: t => a == b && startsWithChars s t

/-- Substring containment on character lists: some suffix starts with the
pattern.  This models JavaScript String.prototype.includes and the test of a
regex alternation of literal tokens. -/
def containsChars : List Char → List Char → Bool
  | [], pat => pat.isEmpty
  | c :: rest, pat => startsWithChars (c :: rest) pat || containsChars rest pat

/-- Substring containment on strings. -/
def strContains (s pat : String) : Bool :=
  containsChars s.data pat.data

/-- JavaScript String.prototype.toLowerCase, character by character. -/
def jsToLower (s : String) : String :=
  String.mk (s.data.map Char.toLower)

/-- The test !text || text.trim().length === 0 of line 326: the string is
empty or entirely whitespace. -/
def jsBlank (s : String) : Bool :=
  s.data.all Char.isWhitespace

/-- uploadHandling.ts lines 363-374: the emotion deny-list. -/
def nsfwEmotions : List String :=
  ["anger", "hatred", "disgust", "obscenity", "explicit", "sexual",
   "profanity", "slur", "abuse", "harassment"]

/-- uploadHandling.ts line 383: the literal alternatives of the nsfwPatterns
regex (case-insensitive). -/
def nsfwPatternWords : List String :=
  ["sex", "porn", "xxx", "nude", "dick", "pussy", "cock", "ass", "shit",
   "fuck", "damn", "cunt", "whore", "slut", "rape", "incest"]

/-- checkTextForNSFW of uploadHandling.ts lines 312-403.  The API key check,
the empty-text short circuit, the three failure branches and the emotion/
pattern decision of lines 376-386.  The function is total: no branch throws. -/
def checkTextForNSFW (apiKey : Option String) (text fieldName : String)
    (api : TextApiOutcome) : TextVerdict :=
  if jsTruthy apiKey = false then
    { isNSFW := false, reason := "Text check skipped", emotion := "", sentiment := "" }
  else if jsBlank text then
    { isNSFW := false, reason := "Empty text", emotion := "", sentiment := "" }
  else
    match api with
    | TextApiOutcome.httpError _ =>
        { isNSFW := false, reason := "Text check API error", emotion := "", sentiment := "" }
    | TextApiOutcome.okNoSentiment =>
        { isNSFW := false, reason := "No sentiment data", emotion := "", sentiment := "" }
    | TextApiOutcome.thrown =>
        { isNSFW := false, reason := "Text check failed", emotion := "", sentiment := "" }
    | TextApiOutcome.okSentiment d =>
        let emotion := jsOrStr d.emotion ""
        let sentiment := jsOrStr d.sentiment ""
        let isEmotionNSFW := nsfwEmotions.any fun e =>
          strContains (jsToLower emotion) e || jsToLower emotion == e
        let textHasNSFWPattern := nsfwPatternWords.any fun p =>
          strContains (jsToLower text) p
        let finalIsNSFW := isEmotionNSFW || textHasNSFWPattern
        { isNSFW := finalIsNSFW
          reason := if finalIsNSFW then fieldName ++ ": Inappropriate content"
                    else fieldName ++ ": Safe"
          emotion := emotion
          sentiment := sentiment }

/-- The failure cases of the text check named by the spec: missing API key,
non-2xx response, missing sentiment data, or a thrown exception. -/
def textCheckFailureCase (apiKey : Option String) (api : TextApiOutcome) : Bool :=
  !(jsTruthy apiKey) ||
    (match api with
     | TextApiOutcome.okSentiment _ => false
     | _ => true)

/-! ## The upload pipeline -/

/-- The fields of an asset document that onAssetUploaded reads. -/
structure Asset where
  status : String
  authorId : String
  name : String
  description : String
  tags : List String
  imageUrl : Option String
deriving DecidableEq

/-- One observable side effect of a pipeline run: a Firestore status update
on the asset, a checkTextForNSFW invocation (the constructor exists so its
absence can be stated), a createWarning call, or a logAuditAction call. -/
inductive Effect where
  | updateAsset (newStatus : String) (reason : Option String)
  | textCheck (field : String)
  | warn (userId : String) (category : String)
  | audit (actorId : String) (action : String) (targetId : String) (isSensitive : Bool)
deriving DecidableEq

/-- onAssetUploaded of uploadHandling.ts lines 24-164, as the sequence of
side effects one delivery performs.  isValidURL models the JavaScript URL
constructor succeeding; api is what the one OpenRouter call did.  The trace
mirrors the source order: the status guard of line 31, the missing-image
reject of line 43, the invalid-URL reject of line 58, then the single
checkImageForNSFW call, whose thrown error is caught by the handler of
line 148 (reject), and whose verdict decides between the reject block of
lines 75-119 (update, createWarning, audit) and the publish block of
lines 122-146 (update, audit).  No call to checkTextForNSFW appears
anywhere in the function. -/
def onAssetUploaded (isValidURL : String → Bool) (api : ImageApiOutcome)
    (assetId : String) (asset : Asset) : List Effect :=
  if asset.status ≠ "uploading" then []
  else if jsTruthy asset.imageUrl = false then
    [Effect.updateAsset "rejected" (some "No image provided for verification")]
  else if isValidURL (asset.imageUrl.getD "") = false then
    [Effect.updateAsset "rejected" (some "Invalid image URL")]
  else
    match checkImageForNSFW api with
    | Except.error msg =>
        [Effect.updateAsset "rejected"
          (some ("Upload verification failed: " ++ msg ++ ". Please try uploading again."))]
    | Except.ok res =>
        if res.isNSFW then
          [Effect.updateAsset "rejected"
            (some ("Content violates community guidelines (inappropriate content detected - "
              ++ res.reason ++ ")")),
           Effect.warn asset.authorId "upload_abuse",
           Effect.audit asset.authorId "UPLOAD_REJECTED_NSFW" assetId true]
        else
          [Effect.updateAsset "published" none,
           Effect.audit asset.authorId "ASSET_PUBLISHED" assetId false]

/-- Number of createWarning calls in a trace. -/
def warnCount : List Effect → Nat
  | [] => 0
  | Effect.warn _ _ :: t => warnCount t + 1
  | _ :: t => warnCount t

/-- Number of logAuditAction calls in a trace. -/
def auditCount : List Effect → Nat
  | [] => 0
  | Effect.audit _ _ _ _ :: t => auditCount t + 1
  | _ :: t => auditCount t

/-- Whether a trace updates the asset to the given status. -/
def setsStatus : List Effect → String → Bool
  | [], _ => false
  | Effect.updateAsset s _ :: t, st => s == st || setsStatus t st
  | _ :: t, st => setsStatus t st

/-- Whether the one image-classifier call of a run parsed and flagged. -/
def flaggedOk (api : ImageApiOutcome) : Bool :=
  match checkImageForNSFW api with
  | Except.ok res => res.isNSFW
  | Except.error _ => false

/-! ## Audit log (src/unnamed/part_001) -/

/-- One document of the audit_logs collection, with the fields logAuditAction
writes. -/
structure AuditEntry where
  actorId : String
  action : String
  targetId : String
  status : String
  ipAddress : Option String
  userAgent : Option String
deriving DecidableEq

/-- logAuditAction of src/unnamed/part_001 lines 32-80.  storeOk says whether
the one Firestore add succeeded; on success the returned document id comes
back (modelled by a fixed id string) with the entry, whose status field is
the literal success and whose ip/user-agent are kept only when isSensitive;
on failure the error is caught and the sentinel audit_failed is returned
with the log unchanged.  The function is total: it never throws. -/
def logAuditAction (storeOk : Bool) (actorId action targetId : String)
    (isSensitive : Bool) (ipAddress userAgent : Option String)
    (log : List AuditEntry) : String × List AuditEntry :=
  if storeOk then
    ("audit-doc-id",
      { actorId := actorId, action := action, targetId := targetId
        status := "success"
        ipAddress := if isSensitive then ipAddress else none
        userAgent := if isSensitive then userAgent else none } :: log)
  else
    ("audit_failed", log)

/-! ## Strike ledger (createWarning, uploadHandling.ts lines 409-493) -/

/-- One document of the warnings collection. -/
structure WarningRec where
  userId : String
  reason : String
  message : String
  evidence : Option String
  isActive : Bool
deriving DecidableEq

/-- The ban fields of a user document. -/
structure BanRecord where
  isBanned : Bool
  banReason : Option String
  banUntilDate : Option ℤ
deriving DecidableEq

/-- One document of the notifications collection (the fields the claims
need). -/
structure Notification where
  userId : String
  ntype : String
deriving DecidableEq

/-- The stores createWarning touches: the warnings collection, the ban
fields of each user document, the notifications collection, the audit log
and the set of auth-disabled principals. -/
structure LedgerState where
  warnings : List WarningRec
  bans : String → BanRecord
  notifications : List Notification
  auditLog : List AuditEntry
  authDisabled : List String

/-- The count of the Firestore query of lines 417-422: active warnings for
this user and reason. -/
def activeWarningCount (s : LedgerState) (userId category : String) : Nat :=
  (s.warnings.filter fun w => w.userId == userId && w.reason == category && w.isActive).length

/-- Line 441: seven days in milliseconds. -/
def banDurationMs : ℤ := 7 * 24 * 60 * 60 * 1000

/-- The ban fields written by lines 445-450. -/
def autoBanRecord (category : String) (now : ℤ) : BanRecord :=
  { isBanned := true
    banReason := some ("Automatic 7-day ban: 3 warnings for " ++ category)
    banUntilDate := some (now + banDurationMs) }

/-- The warning document added at line 427. -/
def newWarning (userId category message : String) (evidence : Option String) : WarningRec :=
  { userId := userId, reason := category, message := message
    evidence := evidence, isActive := true }

/-- createWarning of uploadHandling.ts lines 409-493.  The active count is
read first (lines 417-424), the new warning is always persisted (line 427),
and when count + 1 reaches 3 the auto-ban block of lines 440-477 runs: the
user document gets the autoBanRecord, Firebase Auth is disabled, a ban
notification is added, and one AUTO_BAN_TRIGGERED entry goes through
logAuditAction; otherwise only the lesser warning notification of
lines 478-488 is added.  now is the clock read at line 441. -/
def createWarning (now : ℤ) (userId category message : String)
    (evidence : Option String) (s : LedgerState) : LedgerState :=
  if activeWarningCount s userId category + 1 ≥ 3 then
    { warnings := newWarning userId category message evidence :: s.warnings
      bans := fun u => if u == userId then autoBanRecord category now else s.bans u
      notifications := { userId := userId, ntype := "ban" } :: s.notifications
      auditLog := (logAuditAction true "SYSTEM" "AUTO_BAN_TRIGGERED" userId true
        none none s.auditLog).2
      authDisabled := userId :: s.authDisabled }
  else
    { warnings := newWarning userId category message evidence :: s.warnings
      bans := s.bans
      notifications := { userId := userId, ntype := "warning" } :: s.notifications
      auditLog := s.auditLog
      authDisabled := s.authDisabled }

/-! ## Ban expiry sweep (checkExpiredBans, uploadHandling.ts lines 499-551) -/

/-- One observable step of the sweep: the unban update of lines 519-524, the
auth re-enable of line 527, the notification of lines 530-537, the
BAN_EXPIRED audit entry of line 540. -/
inductive SweepEffect where
  | unbanned (userId : String)
  | authEnabled (userId : String)
  | notified (userId : String)
  | banExpiredAudit (userId : String)
deriving DecidableEq

/-- The four per-user effects of a fully successful restoration, in source
order. -/
def restoreEffects : List String → List SweepEffect
  | [] => []
  | u :: rest =>
      SweepEffect.unbanned u :: SweepEffect.authEnabled u :: SweepEffect.notified u ::
        SweepEffect.banExpiredAudit u :: restoreEffects rest

/-- The for-loop of lines 515-545 over the queried banned users.  authOk
says whether auth.updateUser succeeds for a user.  The document update of
line 519 precedes the auth call; when the auth call throws, the exception
propagates out of the loop to the catch of line 548 (there is no per-user
catch), so the remaining users are not processed in that run. -/
def sweepUsers (authOk : String → Bool) : List String → List SweepEffect
  | [] => []
  | u :: rest =>
      if authOk u then
        SweepEffect.unbanned u :: SweepEffect.authEnabled u :: SweepEffect.notified u ::
          SweepEffect.banExpiredAudit u :: sweepUsers authOk rest
      else
        [SweepEffect.unbanned u]

/-- checkExpiredBans of uploadHandling.ts lines 499-551: the whole loop runs
inside one try/catch, so the function itself never throws; its observable
behaviour is the effect trace of the loop.  bannedUsers is the result of the
query of lines 507-511. -/
def checkExpiredBans (authOk : String → Bool) (bannedUsers : List String) : List SweepEffect :=
  sweepUsers authOk bannedUsers

/-! ## Concrete fixtures used by the witnesses and counterexamples -/

/-- An asset as the pipeline receives it from the trigger: freshly created,
in the uploading state, with a nonempty image URL. -/
def sampleUploadingAsset : Asset :=
  { status := "uploading", authorId := "u1", name := "n", description := "",
    tags := [], imageUrl := some "https://x/i.png" }

/-- An image-classifier call that parsed and did not flag. -/
def safeImageApi : ImageApiOutcome :=
  ImageApiOutcome.ok
    { is_nsfw_true := false, confidence := none,
      category := some "safe", reason := some "ok" }

/-- An asset created without an image URL. -/
def noImageAsset : Asset :=
  { status := "uploading", authorId := "u2", name := "n", description := "",
    tags := [], imageUrl := none }

/-- An asset already in a terminal state. -/
def decidedAsset : Asset :=
  { status := "published", authorId := "u3", name := "n", description := "",
    tags := [], imageUrl := some "https://x/i.png" }

/-- A parsed classifier response the two adapter versions decide
differently: is_nsfw is false but the confidence 0.8 is above the 0.65
threshold of the current adapter and below nothing the old AND-rule needs. -/
def disagreeingImageJson : ImageJson :=
  { is_nsfw_true := false, confidence := some (8 / 10),
    category := some "adult", reason := some "r" }

/-- A ledger with no warnings, no bans, nothing logged. -/
def emptyLedger : LedgerState :=
  { warnings := []
    bans := fun _ => { isBanned := false, banReason := none, banUntilDate := none }
    notifications := [], auditLog := [], authDisabled := [] }

/-! ## C4: the OR decision rule of the image adapter -/

/-- C4.  For every successfully parsed image-classifier response, the
verdict of checkImageForNSFW is flagged iff the is_nsfw field is exactly
true or the confidence field is a number above 0.65; in particular a
response with is_nsfw false and confidence 0.8 is flagged and one with
confidence 0.3 is not. -/
theorem checkImageForNSFW_or_rule :
    (∀ (r : ImageJson) (res : NSFWResult),
        checkImageForNSFW (ImageApiOutcome.ok r) = Except.ok res →
        (res.isNSFW = true ↔
          (r.is_nsfw_true = true ∨ ∃ c, r.confidence = some c ∧ (65 : ℚ) / 100 < c))) ∧
    (∃ res, checkImageForNSFW (ImageApiOutcome.ok
        { is_nsfw_true := false, confidence := some (8 / 10), category := none, reason := none })
        = Except.ok res ∧ res.isNSFW = true) ∧
    (∃ res, checkImageForNSFW (ImageApiOutcome.ok
        { is_nsfw_true := false, confidence := some (3 / 10), category := none, reason := none })
        = Except.ok res ∧ res.isNSFW = false) := by
  refine ⟨?_, ?_, ?_⟩
  · intro r res h
    simp only [checkImageForNSFW, Except.ok.injEq] at h
    subst h
    cases hc : r.confidence with
    | none => simp [imageVerdict, confGt, hc]
    | some q => simp [imageVerdict, confGt, hc]
  · refine ⟨_, rfl, ?_⟩
    simp only [imageVerdict, confGt, Bool.false_or]
    rw [decide_eq_true_eq]
    norm_num
  · refine ⟨_, rfl, ?_⟩
    simp only [imageVerdict, confGt, Bool.false_or]
    rw [decide_eq_false_iff_not]
    norm_num

/-! ## C9: the two shipped image adapters disagree -/

/-- C9 counterexample.  At the concrete parsed response with is_nsfw false
and confidence 0.8, the adapter of uploadHandling.ts flags and the adapter
of part_000 does not: the two shipped versions do not compute the same
outcome. -/
theorem image_adapters_disagree :
    imageVerdict disagreeingImageJson = true ∧
    imageVerdict_v0 disagreeingImageJson = false ∧
    (checkImageForNSFW (ImageApiOutcome.ok disagreeingImageJson)).toOption.map NSFWResult.isNSFW
      = some true ∧
    (checkImageForNSFW_v0 (ImageApiOutcome.ok disagreeingImageJson)).toOption.map NSFWResult.isNSFW
      = some false := by
  have h1 : imageVerdict disagreeingImageJson = true := by
    simp only [disagreeingImageJson, imageVerdict, confGt, Bool.false_or]
    rw [decide_eq_true_eq]; norm_num
  have h0 : imageVerdict_v0 disagreeingImageJson = false := by
    simp [disagreeingImageJson, imageVerdict_v0]
  exact ⟨h1, h0, by simp [checkImageForNSFW, Except.toOption, h1],
    by simp [checkImageForNSFW_v0, Except.toOption, h0]⟩

/-- C9 amended.  The disagreement is one-sided: whenever the part_000
adapter flags a parsed response, the current adapter flags it too (the
AND-rule needs is_nsfw to be exactly true, which alone trips the OR-rule);
the converse fails at disagreeingImageJson. -/
theorem imageVerdict_v0_implies_current (r : ImageJson)
    (h : imageVerdict_v0 r = true) : imageVerdict r = true := by
  have hn : r.is_nsfw_true = true := by
    simp only [imageVerdict_v0, Bool.and_eq_true] at h
    exact h.1
  simp [imageVerdict, hn]

/-- Witness for imageVerdict_v0_implies_current at a response both versions
flag. -/
theorem imageVerdict_v0_implies_current_witness :
    imageVerdict
      { is_nsfw_true := true, confidence := some 1, category := none, reason := none } = true :=
  imageVerdict_v0_implies_current _
    (by simp only [imageVerdict_v0, confGt, Bool.true_and]
        rw [decide_eq_true_eq]; norm_num)

/-! ## C7: the no-op guard for already-decided assets -/

/-- C7.  A delivery for an asset whose status is not uploading returns
immediately: the run performs no status update, no warning and no audit
append at all. -/
theorem onAssetUploaded_skips_decided (isValidURL : String → Bool)
    (api : ImageApiOutcome) (assetId : String) (asset : Asset)
    (h : asset.status ≠ "uploading") :
    onAssetUploaded isValidURL api assetId asset = [] := by
  simp [onAssetUploaded, h]

/-- Witness for onAssetUploaded_skips_decided at a published asset. -/
theorem onAssetUploaded_skips_decided_witness :
    onAssetUploaded (fun _ => true) ImageApiOutcome.missingKey "a9" decidedAsset = [] :=
  onAssetUploaded_skips_decided _ _ _ _ (by decide)

/-! ## C1: image-classifier failure is fail-closed -/

/-- C1.  In every pipeline run that actually reaches the image classifier
(status uploading, truthy image URL that parses) and in which
checkImageForNSFW fails for any of its reasons (missing key, non-2xx,
unusable or unparseable body, network error), the run updates the asset to
rejected and no run with a failed classifier ever updates it to published. -/
theorem imageFailure_rejects_never_publishes (isValidURL : String → Bool)
    (api : ImageApiOutcome) (assetId : String) (asset : Asset)
    (h₁ : asset.status = "uploading")
    (h₂ : jsTruthy asset.imageUrl = true)
    (h₃ : isValidURL (asset.imageUrl.getD "") = true)
    (h₄ : exceptFailed (checkImageForNSFW api) = true) :
    (∃ reason, Effect.updateAsset "rejected" reason ∈ onAssetUploaded isValidURL api assetId asset) ∧
    (∀ reason, Effect.updateAsset "published" reason ∉ onAssetUploaded isValidURL api assetId asset) := by
  obtain ⟨msg, hmsg⟩ : ∃ m, checkImageForNSFW api = Except.error m := by
    cases he : checkImageForNSFW api with
    | error m => exact ⟨m, rfl⟩
    | ok res => rw [he] at h₄; simp [exceptFailed] at h₄
  have htrace : onAssetUploaded isValidURL api assetId asset =
      [Effect.updateAsset "rejected"
        (some ("Upload verification failed: " ++ msg ++ ". Please try uploading again."))] := by
    simp [onAssetUploaded, h₁, h₂, h₃, hmsg]
  rw [htrace]
  constructor
  · exact ⟨_, List.mem_singleton.mpr rfl⟩
  · intro reason hmem
    simp only [List.mem_singleton, Effect.updateAsset.injEq] at hmem
    exact absurd hmem.1 (by decide)

/-- Witness for imageFailure_rejects_never_publishes: a run with the API key
missing. -/
theorem imageFailure_rejects_never_publishes_witness :
    (∃ reason, Effect.updateAsset "rejected" reason ∈
        onAssetUploaded (fun _ => true) ImageApiOutcome.missingKey "a1" sampleUploadingAsset) ∧
    (∀ reason, Effect.updateAsset "published" reason ∉
        onAssetUploaded (fun _ => true) ImageApiOutcome.missingKey "a1" sampleUploadingAsset) :=
  imageFailure_rejects_never_publishes _ _ _ _ rfl (by decide) rfl (by decide)

/-! ## C2: the pipeline never invokes the text classifier -/

/-- An uploading asset whose name matches the nsfwPatterns regex and whose
image is safe. -/
def nsfwNameAsset : Asset :=
  { status := "uploading", authorId := "u1", name := "sex toys collection",
    description := "d", tags := ["t"], imageUrl := some "https://example.com/img.png" }

/-- C2 (code bug).  At the concrete asset whose name is the spec's own
example, a delivery publishes the asset and performs no checkTextForNSFW
call at all, although checkTextForNSFW itself would flag that name (both
through the emotion deny-list and through the nsfwPatterns regex):
onAssetUploaded goes straight to the image check, so the text stage the
spec and the repository's documentation describe never runs. -/
theorem pipeline_never_invokes_text_classifier :
    onAssetUploaded (fun _ => true) safeImageApi "a1" nsfwNameAsset =
      [Effect.updateAsset "published" none, Effect.audit "u1" "ASSET_PUBLISHED" "a1" false] ∧
    (∀ f, Effect.textCheck f ∉ onAssetUploaded (fun _ => true) safeImageApi "a1" nsfwNameAsset) ∧
    checkTextForNSFW (some "key") "sex toys collection" "name"
      (TextApiOutcome.okSentiment { emotion := some "sexual", sentiment := some "negative", score := none })
      = { isNSFW := true, reason := "name: Inappropriate content",
          emotion := "sexual", sentiment := "negative" } := by
  refine ⟨by decide, ?_, by decide⟩
  intro f hf
  rw [(by decide : onAssetUploaded (fun _ => true) safeImageApi "a1" nsfwNameAsset =
      [Effect.updateAsset "published" none, Effect.audit "u1" "ASSET_PUBLISHED" "a1" false])] at hf
  simp at hf

/-! ## C3: side effects of a rejecting run -/

/-- C3 counterexample.  The run for an asset with no image URL terminates
with the asset rejected and performs zero createWarning calls and zero
audit appends, refuting the claim that every rejecting run performs exactly
one of each. -/
theorem reject_without_warning_or_audit :
    setsStatus (onAssetUploaded (fun _ => true) safeImageApi "a2" noImageAsset) "rejected" = true ∧
    warnCount (onAssetUploaded (fun _ => true) safeImageApi "a2" noImageAsset) = 0 ∧
    auditCount (onAssetUploaded (fun _ => true) safeImageApi "a2" noImageAsset) = 0 := by
  decide

/-- C3 amended.  A rejecting run performs exactly one createWarning call
(category upload_abuse) and exactly one audit append when the rejection
comes from a flagged image verdict, and performs none of either when it
comes from a missing or invalid image URL or from a classifier failure;
conversely every run whose classifier verdict is flagged rejects with
exactly one of each. -/
theorem reject_side_effects (isValidURL : String → Bool) (api : ImageApiOutcome)
    (assetId : String) (asset : Asset) :
    (setsStatus (onAssetUploaded isValidURL api assetId asset) "rejected" = true →
      (flaggedOk api = true ∧
        warnCount (onAssetUploaded isValidURL api assetId asset) = 1 ∧
        auditCount (onAssetUploaded isValidURL api assetId asset) = 1 ∧
        Effect.warn asset.authorId "upload_abuse" ∈ onAssetUploaded isValidURL api assetId asset) ∨
      (warnCount (onAssetUploaded isValidURL api assetId asset) = 0 ∧
        auditCount (onAssetUploaded isValidURL api assetId asset) = 0)) ∧
    (flaggedOk api = true → asset.status = "uploading" → jsTruthy asset.imageUrl = true →
      isValidURL (asset.imageUrl.getD "") = true →
      setsStatus (onAssetUploaded isValidURL api assetId asset) "rejected" = true ∧
      warnCount (onAssetUploaded isValidURL api assetId asset) = 1 ∧
      auditCount (onAssetUploaded isValidURL api assetId asset) = 1) := by
  by_cases hs : asset.status = "uploading"
  · by_cases himg : jsTruthy asset.imageUrl = true
    · by_cases hurl : isValidURL (asset.imageUrl.getD "") = true
      · cases he : checkImageForNSFW api with
        | error m =>
          have ht : onAssetUploaded isValidURL api assetId asset =
              [Effect.updateAsset "rejected"
                (some ("Upload verification failed: " ++ m ++ ". Please try uploading again."))] := by
            simp [onAssetUploaded, hs, himg, hurl, he]
          rw [ht]
          constructor
          · intro _
            exact Or.inr ⟨rfl, rfl⟩
          · intro hf
            rw [show flaggedOk api = false by simp [flaggedOk, he]] at hf
            exact absurd hf (by decide)
        | ok res =>
          cases hr : res.isNSFW with
          | false =>
            have ht : onAssetUploaded isValidURL api assetId asset =
                [Effect.updateAsset "published" none,
                 Effect.audit asset.authorId "ASSET_PUBLISHED" assetId false] := by
              simp [onAssetUploaded, hs, himg, hurl, he, hr]
            rw [ht]
            constructor
            · intro hrej
              simp [setsStatus] at hrej
            · intro hf
              rw [show flaggedOk api = false by simp [flaggedOk, he, hr]] at hf
              exact absurd hf (by decide)
          | true =>
            have ht : onAssetUploaded isValidURL api assetId asset =
                [Effect.updateAsset "rejected"
                  (some ("Content violates community guidelines (inappropriate content detected - "
                    ++ res.reason ++ ")")),
                 Effect.warn asset.authorId "upload_abuse",
                 Effect.audit asset.authorId "UPLOAD_REJECTED_NSFW" assetId true] := by
              simp [onAssetUploaded, hs, himg, hurl, he, hr]
            rw [ht]
            have hflag : flaggedOk api = true := by simp [flaggedOk, he, hr]
            constructor
            · intro _
              exact Or.inl ⟨hflag, rfl, rfl, by simp⟩
            · intro _ _ _ _
              exact ⟨by simp [setsStatus], rfl, rfl⟩
      · have hurl' : isValidURL (asset.imageUrl.getD "") = false := by
          revert hurl; cases isValidURL (asset.imageUrl.getD "") <;> simp
        have ht : onAssetUploaded isValidURL api assetId asset =
            [Effect.updateAsset "rejected" (some "Invalid image URL")] := by
          simp [onAssetUploaded, hs, himg, hurl']
        rw [ht]
        constructor
        · intro _
          exact Or.inr ⟨rfl, rfl⟩
        · intro _ _ _ h4
          rw [hurl'] at h4
          exact absurd h4 (by decide)
    · have himg' : jsTruthy asset.imageUrl = false := by
        revert himg; cases jsTruthy asset.imageUrl <;> simp
      have ht : onAssetUploaded isValidURL api assetId asset =
          [Effect.updateAsset "rejected" (some "No image provided for verification")] := by
        simp [onAssetUploaded, hs, himg']
      rw [ht]
      constructor
      · intro _
        exact Or.inr ⟨rfl, rfl⟩
      · intro _ _ h3 _
        rw [himg'] at h3
        exact absurd h3 (by decide)
  · have ht : onAssetUploaded isValidURL api assetId asset = [] := by
      simp [onAssetUploaded, hs]
    rw [ht]
    constructor
    · intro hrej
      simp [setsStatus] at hrej
    · intro _ h2
      exact absurd h2 hs

/-! ## C8: the text classifier fails open -/

/-- C8.  For every failure of the text check distinguished by the source
(missing API key, non-2xx response, missing sentiment data, thrown
exception) checkTextForNSFW returns a non-flagged verdict with a nonempty
diagnostic reason; the function is total, so no failure raises. -/
theorem checkTextForNSFW_fails_open (apiKey : Option String) (text fieldName : String)
    (api : TextApiOutcome)
    (h : textCheckFailureCase apiKey api = true) :
    (checkTextForNSFW apiKey text fieldName api).isNSFW = false ∧
    (checkTextForNSFW apiKey text fieldName api).reason ≠ "" := by
  cases hk : jsTruthy apiKey with
  | false => constructor <;> simp [checkTextForNSFW, hk]
  | true =>
    by_cases ht : jsBlank text = true
    · constructor <;> simp [checkTextForNSFW, hk, ht]
    · cases api with
      | httpError s => constructor <;> simp [checkTextForNSFW, hk, ht]
      | okNoSentiment => constructor <;> simp [checkTextForNSFW, hk, ht]
      | thrown => constructor <;> simp [checkTextForNSFW, hk, ht]
      | okSentiment d =>
        exfalso
        simp [textCheckFailureCase, hk] at h

/-- Witness for checkTextForNSFW_fails_open: a thrown network error with the
key absent. -/
theorem checkTextForNSFW_fails_open_witness :
    (checkTextForNSFW none "some text" "name" TextApiOutcome.thrown).isNSFW = false ∧
    (checkTextForNSFW none "some text" "name" TextApiOutcome.thrown).reason ≠ "" :=
  checkTextForNSFW_fails_open _ _ _ _ (by decide)

/-! ## C5: the third warning triggers the 7-day auto-ban -/

/-- Every createWarning call persists the new active warning, in both
branches of the threshold check. -/
lemma createWarning_warnings (now : ℤ) (userId category message : String)
    (evidence : Option String) (s : LedgerState) :
    (createWarning now userId category message evidence s).warnings =
      newWarning userId category message evidence :: s.warnings := by
  unfold createWarning
  split <;> rfl

/-- One createWarning call raises the active count for its own user and
category by exactly one. -/
lemma activeWarningCount_createWarning (now : ℤ) (userId category message : String)
    (evidence : Option String) (s : LedgerState) :
    activeWarningCount (createWarning now userId category message evidence s) userId category =
      activeWarningCount s userId category + 1 := by
  unfold activeWarningCount
  rw [createWarning_warnings]
  simp [newWarning, List.filter_cons]

/-- Below the threshold, the ban fields and the audit log are untouched. -/
lemma createWarning_below_threshold (now : ℤ) (userId category message : String)
    (evidence : Option String) (s : LedgerState)
    (h : activeWarningCount s userId category + 1 < 3) :
    (createWarning now userId category message evidence s).bans = s.bans ∧
    (createWarning now userId category message evidence s).auditLog = s.auditLog := by
  unfold createWarning
  rw [if_neg (by omega)]
  exact ⟨rfl, rfl⟩

/-- At the threshold, the user's ban record becomes the 7-day auto-ban, the
principal is auth-disabled, and one AUTO_BAN_TRIGGERED entry goes through
logAuditAction. -/
lemma createWarning_at_threshold (now : ℤ) (userId category message : String)
    (evidence : Option String) (s : LedgerState)
    (h : activeWarningCount s userId category + 1 ≥ 3) :
    (createWarning now userId category message evidence s).bans userId =
      autoBanRecord category now ∧
    (createWarning now userId category message evidence s).auditLog =
      (logAuditAction true "SYSTEM" "AUTO_BAN_TRIGGERED" userId true none none s.auditLog).2 ∧
    userId ∈ (createWarning now userId category message evidence s).authDisabled := by
  unfold createWarning
  rw [if_pos h]
  exact ⟨by simp, rfl, by simp⟩

/-- C5.  Starting from zero active warnings for a user and category and an
unbanned user, the first two createWarning calls leave isBanned false, the
third sets the ban record to the 7-day auto-ban computed from the third
call's clock and appends the AUTO_BAN_TRIGGERED audit entry, and every call
(regardless of the count) persists one new active warning. -/
theorem third_warning_triggers_ban (n1 n2 n3 : ℤ) (u cat m1 m2 m3 : String)
    (e1 e2 e3 : Option String) (s0 : LedgerState)
    (h0 : activeWarningCount s0 u cat = 0)
    (hb : (s0.bans u).isBanned = false) :
    ((createWarning n1 u cat m1 e1 s0).bans u).isBanned = false ∧
    ((createWarning n2 u cat m2 e2 (createWarning n1 u cat m1 e1 s0)).bans u).isBanned = false ∧
    (createWarning n3 u cat m3 e3 (createWarning n2 u cat m2 e2
        (createWarning n1 u cat m1 e1 s0))).bans u = autoBanRecord cat n3 ∧
    (createWarning n3 u cat m3 e3 (createWarning n2 u cat m2 e2
        (createWarning n1 u cat m1 e1 s0))).auditLog =
      (logAuditAction true "SYSTEM" "AUTO_BAN_TRIGGERED" u true none none
        (createWarning n2 u cat m2 e2 (createWarning n1 u cat m1 e1 s0)).auditLog).2 ∧
    (∀ (n : ℤ) (u' c' m' : String) (e' : Option String) (s : LedgerState),
      (createWarning n u' c' m' e' s).warnings = newWarning u' c' m' e' :: s.warnings) := by
  have hlt1 : activeWarningCount s0 u cat + 1 < 3 := by omega
  have hbans1 := (createWarning_below_threshold n1 u cat m1 e1 s0 hlt1).1
  have hc1 : activeWarningCount (createWarning n1 u cat m1 e1 s0) u cat = 1 := by
    rw [activeWarningCount_createWarning, h0]
  have hlt2 : activeWarningCount (createWarning n1 u cat m1 e1 s0) u cat + 1 < 3 := by omega
  have hbans2 := (createWarning_below_threshold n2 u cat m2 e2 _ hlt2).1
  have hc2 : activeWarningCount (createWarning n2 u cat m2 e2
      (createWarning n1 u cat m1 e1 s0)) u cat = 2 := by
    rw [activeWarningCount_createWarning, hc1]
  have hge3 : activeWarningCount (createWarning n2 u cat m2 e2
      (createWarning n1 u cat m1 e1 s0)) u cat + 1 ≥ 3 := by omega
  have h3 := createWarning_at_threshold n3 u cat m3 e3 _ hge3
  refine ⟨?_, ?_, h3.1, h3.2.1, ?_⟩
  · rw [hbans1]; exact hb
  · rw [hbans2, hbans1]; exact hb
  · intro n u' c' m' e' s
    exact createWarning_warnings n u' c' m' e' s

/-- Witness for third_warning_triggers_ban: three warnings against a fresh
ledger ban the user on the third. -/
theorem third_warning_triggers_ban_witness :
    activeWarningCount emptyLedger "u1" "upload_abuse" = 0 ∧
    ((createWarning 1 "u1" "upload_abuse" "m2" none
        (createWarning 0 "u1" "upload_abuse" "m1" none emptyLedger)).bans "u1").isBanned = false ∧
    (createWarning 2 "u1" "upload_abuse" "m3" none
      (createWarning 1 "u1" "upload_abuse" "m2" none
        (createWarning 0 "u1" "upload_abuse" "m1" none emptyLedger))).bans "u1" =
      autoBanRecord "upload_abuse" 2 :=
  ⟨rfl,
   (third_warning_triggers_ban 0 1 2 "u1" "upload_abuse" "m1" "m2" "m3"
      none none none emptyLedger rfl rfl).2.1,
   (third_warning_triggers_ban 0 1 2 "u1" "upload_abuse" "m1" "m2" "m3"
      none none none emptyLedger rfl rfl).2.2.1⟩

/-! ## C6: the expiry sweep is not failure-isolated -/

/-- C6 counterexample.  With two eligible users and the auth re-enable call
failing for the first, the sweep's trace is the first user's document
update only: the second eligible user is not restored in that run, refuting
per-user failure isolation. -/
theorem sweep_not_isolated :
    checkExpiredBans (fun u => u != "u1") ["u1", "u2"] = [SweepEffect.unbanned "u1"] ∧
    SweepEffect.unbanned "u2" ∉ checkExpiredBans (fun u => u != "u1") ["u1", "u2"] := by
  decide

/-- Restoring a fully successful prefix of users distributes over append. -/
lemma sweepUsers_append_ok (authOk : String → Bool) :
    ∀ (pre tail : List String), (∀ v ∈ pre, authOk v = true) →
      sweepUsers authOk (pre ++ tail) = restoreEffects pre ++ sweepUsers authOk tail := by
  intro pre
  induction pre with
  | nil => intro tail _; simp [restoreEffects]
  | cons v vs ih =>
    intro tail hpre
    have hv : authOk v = true := hpre v (List.mem_cons_self _ _)
    have hvs : ∀ w ∈ vs, authOk w = true := fun w hw => hpre w (List.mem_cons_of_mem _ hw)
    simp [sweepUsers, hv, restoreEffects, ih tail hvs]

/-- C6 amended.  A per-user failure is caught only around the whole loop:
the users before the failing one are fully restored, the failing user gets
only the document update that precedes the auth call, and every user after
the failing one is left unprocessed in that run. -/
theorem sweep_aborts_at_first_failure (authOk : String → Bool) (pre : List String)
    (u : String) (rest : List String)
    (hpre : ∀ v ∈ pre, authOk v = true) (hu : authOk u = false) :
    checkExpiredBans authOk (pre ++ u :: rest) =
      restoreEffects pre ++ [SweepEffect.unbanned u] := by
  unfold checkExpiredBans
  rw [sweepUsers_append_ok authOk pre (u :: rest) hpre]
  simp [sweepUsers, hu]

/-- Witness for sweep_aborts_at_first_failure: one restored user, then the
failing user, then an abandoned one. -/
theorem sweep_aborts_at_first_failure_witness :
    checkExpiredBans (fun v => v != "u1") (["u0"] ++ "u1" :: ["u2"]) =
      restoreEffects ["u0"] ++ [SweepEffect.unbanned "u1"] :=
  sweep_aborts_at_first_failure _ _ _ _ (by decide) (by decide)

/-! ## C10: every audit entry is written with status success -/

/-- C10.  Every entry logAuditAction adds carries status success (whatever
isSensitive is and whether or not the surrounding operation failed, since
the status literal is fixed); when the store write fails the function
returns the audit_failed sentinel with the log unchanged instead of
throwing; on success the one new entry has status success. -/
theorem logAuditAction_always_success :
    (∀ (storeOk : Bool) (actorId action targetId : String) (isSensitive : Bool)
        (ip ua : Option String) (log : List AuditEntry) (e : AuditEntry),
        e ∈ (logAuditAction storeOk actorId action targetId isSensitive ip ua log).2 →
        e ∈ log ∨ e.status = "success") ∧
    (∀ (actorId action targetId : String) (isSensitive : Bool) (ip ua : Option String)
        (log : List AuditEntry),
        logAuditAction false actorId action targetId isSensitive ip ua log =
          ("audit_failed", log)) ∧
    (∀ (actorId action targetId : String) (isSensitive : Bool) (ip ua : Option String)
        (log : List AuditEntry),
        ∃ e, (logAuditAction true actorId action targetId isSensitive ip ua log).2 = e :: log ∧
          e.status = "success") := by
  refine ⟨?_, ?_, ?_⟩
  · intro storeOk actorId action targetId isSensitive ip ua log e he
    cases storeOk with
    | false => exact Or.inl (by simpa [logAuditAction] using he)
    | true =>
      rcases List.mem_cons.mp (by simpa [logAuditAction] using he) with h | h
      · exact Or.inr (by rw [h])
      · exact Or.inl h
  · intro actorId action targetId isSensitive ip ua log
    rfl
  · intro actorId action targetId isSensitive ip ua log
    exact ⟨_, rfl, rfl⟩

end Marketplace
